import Mathlib

/-!
# SnailOS system-call wrappers

A shallow embedding of the interposition shims under `src/wrap/`
(`wrap.c`, `read.c`, `vfork.c`, `waitpid.c`, `wait4.c`) and the properties
of their pass-through behaviour.

Every C function of the repository is a single `return js_x(args);`, and
every connector `js_x` is a single host-language expression
`OS.member(args)` (or a field read `OS.pid`).  No wrapper performs
arithmetic or converts between types of different width: a value is only
ever handed from a parameter to a parameter of the same declared type.
Values are therefore integers of the declared C type, and the members of
the host facade are typed by the signature of the connector that calls them.
-/

namespace SnailOS

/-! ## Data model -/

/-- C type `pid_t`. -/
abbrev pid_t := Int

/-- C type `ssize_t`. -/
abbrev ssize_t := Int

/-- C type `size_t`. -/
abbrev size_t := Nat

/-- An address in the linear memory of the calling process
(`void *`, `int *`, `struct rusage *`). -/
abbrev ptr := Nat

/-- The data held by the host object `OS`: the integer fields `OS.pid` and
`OS.ppid`, and whatever else the host keeps (process table, file offsets). -/
structure OSData (σ : Type) where
  pid : pid_t
  ppid : pid_t
  kernel : σ

/-- Everything a host member may read or change during one call: the host's
own data, the linear memory of the caller, and the external error-code slot. -/
structure Machine (σ : Type) where
  os : OSData σ
  mem : ptr → Nat
  errno : Int

/-- The callable members of the host facade `OS`.  The members reached through
`await` may never resolve (`none`); `OS.write` is called synchronously. -/
structure OS (σ : Type) where
  vfork : Machine σ → Option (pid_t × Machine σ)
  waitpid : pid_t → ptr → Int → Machine σ → Option (pid_t × Machine σ)
  wait4 : pid_t → ptr → Int → ptr → Machine σ → Option (pid_t × Machine σ)
  read : Int → ptr → size_t → Machine σ → Option (ssize_t × Machine σ)
  write : Int → ptr → size_t → Machine σ → ssize_t × Machine σ

/-- Host-language bodies of the `EM_JS` connectors. -/
inductive SyncExpr where
  | pid
  | ppid
  | write (fd : Int) (buf : ptr) (count : size_t)
  deriving DecidableEq, Repr

/-- Host-language bodies of the `EM_ASYNC_JS` connectors, each of the form
`await OS.member(args)`. -/
inductive AsyncExpr where
  | vfork
  | waitpid (pid : pid_t) (status : ptr) (options : Int)
  | wait4 (pid : pid_t) (status : ptr) (options : Int) (rusage : ptr)
  | read (fd : Int) (buf : ptr) (count : size_t)
  deriving DecidableEq, Repr

/-- One access to the host facade, as recorded in the log. -/
inductive Access where
  | sync (e : SyncExpr)
  | async (e : AsyncExpr)
  deriving DecidableEq, Repr

/-- The state seen by a caller of the wrappers: the machine, the log of host
accesses made so far, and how often the caller has been suspended. -/
structure World (σ : Type) where
  machine : Machine σ
  log : List Access
  suspensions : Nat

/-- Evaluation of a synchronous body against the host. -/
def SyncExpr.eval {σ : Type} (os : OS σ) : SyncExpr → Machine σ → Int × Machine σ
  | .pid, m => (m.os.pid, m)
  | .ppid, m => (m.os.ppid, m)
  | .write fd buf count, m => os.write fd buf count m

/-- Evaluation of an awaited body against the host. -/
def AsyncExpr.eval {σ : Type} (os : OS σ) : AsyncExpr → Machine σ → Option (Int × Machine σ)
  | .vfork, m => os.vfork m
  | .waitpid pid status options, m => os.waitpid pid status options m
  | .wait4 pid status options rusage, m => os.wait4 pid status options rusage m
  | .read fd buf count, m => os.read fd buf count m

/-- Modelled from the spec: the Emscripten macro `EM_JS` (declared in
`emscripten.h`, which is not part of the repository).  The connector runs its
host-language body to completion and returns the body's value at once; the
caller is not suspended. -/
def EM_JS {σ : Type} (os : OS σ) (body : SyncExpr) (w : World σ) : Int × World σ :=
  match body.eval os w.machine with
  | (r, m) => (r, { machine := m, log := w.log ++ [Access.sync body], suspensions := w.suspensions })

/-- Modelled from the spec: the Emscripten macro `EM_ASYNC_JS` (declared in
`emscripten.h`, which is not part of the repository).  The caller is suspended
until the awaited host operation resolves and then resumes with the value it
resolved with; when the host never resolves, the caller never resumes. -/
def EM_ASYNC_JS {σ : Type} (os : OS σ) (body : AsyncExpr) (w : World σ) : Option (Int × World σ) :=
  match body.eval os w.machine with
  | none => none
  | some (r, m) =>
    some (r, { machine := m, log := w.log ++ [Access.async body], suspensions := w.suspensions + 1 })

/-! ## `wrap.c` -/

namespace wrap_c

variable {σ : Type}

/-- Connector `EM_JS(pid_t, js_getpid, (), { return OS.pid; });` -/
def js_getpid (os : OS σ) : World σ → pid_t × World σ :=
  EM_JS os SyncExpr.pid

/-- Connector `EM_JS(pid_t, js_getppid, (), { return OS.ppid; });` -/
def js_getppid (os : OS σ) : World σ → pid_t × World σ :=
  EM_JS os SyncExpr.ppid

/-- Connector `EM_ASYNC_JS(pid_t, js_vfork, (), { return await OS.vfork(); });` -/
def js_vfork (os : OS σ) : World σ → Option (pid_t × World σ) :=
  EM_ASYNC_JS os AsyncExpr.vfork

/-- Connector `EM_ASYNC_JS(pid_t, js_waitpid, (pid_t pid, int *status, int options),
{ return await OS.waitpid(pid, status, options); });` -/
def js_waitpid (os : OS σ) (pid : pid_t) (status : ptr) (options : Int) :
    World σ → Option (pid_t × World σ) :=
  EM_ASYNC_JS os (AsyncExpr.waitpid pid status options)

/-- Connector `EM_ASYNC_JS(pid_t, js_wait4, (pid_t pid, int *status, int options,
struct rusage *rusage), { return await OS.wait4(pid, status, options, rusage); });` -/
def js_wait4 (os : OS σ) (pid : pid_t) (status : ptr) (options : Int) (rusage : ptr) :
    World σ → Option (pid_t × World σ) :=
  EM_ASYNC_JS os (AsyncExpr.wait4 pid status options rusage)

/-- Connector `EM_ASYNC_JS(ssize_t, js_read, (int fd, void *buf, size_t count),
{ return await OS.read(fd, buf, count); });` -/
def js_read (os : OS σ) (fd : Int) (buf : ptr) (count : size_t) :
    World σ → Option (ssize_t × World σ) :=
  EM_ASYNC_JS os (AsyncExpr.read fd buf count)

/-- Connector `EM_JS(ssize_t, js_write, (int fd, const void *buf, size_t count),
{ return OS.write(fd, buf, count); });` -/
def js_write (os : OS σ) (fd : Int) (buf : ptr) (count : size_t) :
    World σ → ssize_t × World σ :=
  EM_JS os (SyncExpr.write fd buf count)

/-- Wrapper `pid_t __wrap_getpid() { return js_getpid(); }` -/
def __wrap_getpid (os : OS σ) (w : World σ) : pid_t × World σ :=
  js_getpid os w

/-- Wrapper `pid_t __wrap_getppid() { return js_getppid(); }` -/
def __wrap_getppid (os : OS σ) (w : World σ) : pid_t × World σ :=
  js_getppid os w

/-- Wrapper `pid_t __wrap_vfork() { return js_vfork(); }` -/
def __wrap_vfork (os : OS σ) (w : World σ) : Option (pid_t × World σ) :=
  js_vfork os w

/-- Wrapper `pid_t __wrap_waitpid(pid_t pid, int *status, int options)` -/
def __wrap_waitpid (os : OS σ) (pid : pid_t) (status : ptr) (options : Int) (w : World σ) :
    Option (pid_t × World σ) :=
  js_waitpid os pid status options w

/-- Wrapper `pid_t __wrap___syscall_wait4(pid_t pid, int *status, int options,
struct rusage *rusage)` -/
def __wrap___syscall_wait4 (os : OS σ) (pid : pid_t) (status : ptr) (options : Int)
    (rusage : ptr) (w : World σ) : Option (pid_t × World σ) :=
  js_wait4 os pid status options rusage w

/-- Wrapper `ssize_t __wrap_read(int fd, void *buf, size_t count)` -/
def __wrap_read (os : OS σ) (fd : Int) (buf : ptr) (count : size_t) (w : World σ) :
    Option (ssize_t × World σ) :=
  js_read os fd buf count w

/-- Wrapper `ssize_t __wrap_write(int fd, const void *buf, size_t count)` -/
def __wrap_write (os : OS σ) (fd : Int) (buf : ptr) (count : size_t) (w : World σ) :
    ssize_t × World σ :=
  js_write os fd buf count w

end wrap_c

/-! ## `read.c` -/

namespace read_c

variable {σ : Type}

/-- Connector `EM_ASYNC_JS(ssize_t, js_read, (int fd, void *buf, size_t count),
{ return await OS.read(fd, buf, count); });` -/
def js_read (os : OS σ) (fd : Int) (buf : ptr) (count : size_t) :
    World σ → Option (ssize_t × World σ) :=
  EM_ASYNC_JS os (AsyncExpr.read fd buf count)

/-- Wrapper `ssize_t __wrap_read(int fd, void *buf, size_t count)` -/
def __wrap_read (os : OS σ) (fd : Int) (buf : ptr) (count : size_t) (w : World σ) :
    Option (ssize_t × World σ) :=
  js_read os fd buf count w

end read_c

/-! ## `vfork.c` -/

namespace vfork_c

variable {σ : Type}

/-- Connector `EM_ASYNC_JS(pid_t, js_vfork, (), { return await OS.vfork(); });` -/
def js_vfork (os : OS σ) : World σ → Option (pid_t × World σ) :=
  EM_ASYNC_JS os AsyncExpr.vfork

/-- Wrapper `pid_t __wrap_vfork() { return js_vfork(); }` -/
def __wrap_vfork (os : OS σ) (w : World σ) : Option (pid_t × World σ) :=
  js_vfork os w

end vfork_c

/-! ## `waitpid.c` -/

namespace waitpid_c

variable {σ : Type}

/-- Connector `EM_ASYNC_JS(pid_t, js_waitpid, (pid_t pid, int *status, int options),
{ return await OS.waitpid(pid, status, options); });` -/
def js_waitpid (os : OS σ) (pid : pid_t) (status : ptr) (options : Int) :
    World σ → Option (pid_t × World σ) :=
  EM_ASYNC_JS os (AsyncExpr.waitpid pid status options)

/-- Wrapper `pid_t __wrap_waitpid(pid_t pid, int *status, int options)` -/
def __wrap_waitpid (os : OS σ) (pid : pid_t) (status : ptr) (options : Int) (w : World σ) :
    Option (pid_t × World σ) :=
  js_waitpid os pid status options w

end waitpid_c

/-! ## `wait4.c` -/

namespace wait4_c

variable {σ : Type}

/-- Connector `EM_ASYNC_JS(pid_t, js_wait4, (pid_t pid, int *status, int options,
struct rusage *rusage), { return await OS.wait4(pid, status, options, rusage); });` -/
def js_wait4 (os : OS σ) (pid : pid_t) (status : ptr) (options : Int) (rusage : ptr) :
    World σ → Option (pid_t × World σ) :=
  EM_ASYNC_JS os (AsyncExpr.wait4 pid status options rusage)

/-- Wrapper `pid_t __wrap___syscall_wait4(pid_t pid, int *status, int options,
struct rusage *rusage)` -/
def __wrap___syscall_wait4 (os : OS σ) (pid : pid_t) (status : ptr) (options : Int)
    (rusage : ptr) (w : World σ) : Option (pid_t × World σ) :=
  js_wait4 os pid status options rusage w

end wait4_c

/-! ## A caller issuing wrapper calls one after another -/

/-- One invocation of a wrapper of `wrap.c`, with its arguments. -/
inductive Call where
  | getpid
  | getppid
  | vfork
  | waitpid (pid : pid_t) (status : ptr) (options : Int)
  | wait4 (pid : pid_t) (status : ptr) (options : Int) (rusage : ptr)
  | read (fd : Int) (buf : ptr) (count : size_t)
  | write (fd : Int) (buf : ptr) (count : size_t)
  deriving DecidableEq, Repr

/-- The host member, with arguments, that corresponds to a wrapper call. -/
def Call.access : Call → Access
  | .getpid => Access.sync SyncExpr.pid
  | .getppid => Access.sync SyncExpr.ppid
  | .vfork => Access.async AsyncExpr.vfork
  | .waitpid pid status options => Access.async (AsyncExpr.waitpid pid status options)
  | .wait4 pid status options rusage => Access.async (AsyncExpr.wait4 pid status options rusage)
  | .read fd buf count => Access.async (AsyncExpr.read fd buf count)
  | .write fd buf count => Access.sync (SyncExpr.write fd buf count)

/-- The caller executes one wrapper call. -/
def Call.exec {σ : Type} (os : OS σ) : Call → World σ → Option (Int × World σ)
  | .getpid, w => some (wrap_c.__wrap_getpid os w)
  | .getppid, w => some (wrap_c.__wrap_getppid os w)
  | .vfork, w => wrap_c.__wrap_vfork os w
  | .waitpid pid status options, w => wrap_c.__wrap_waitpid os pid status options w
  | .wait4 pid status options rusage, w =>
    wrap_c.__wrap___syscall_wait4 os pid status options rusage w
  | .read fd buf count, w => wrap_c.__wrap_read os fd buf count w
  | .write fd buf count, w => some (wrap_c.__wrap_write os fd buf count w)

/-- The caller executes a sequence of wrapper calls in program order and
collects the results; a call that never returns blocks the rest. -/
def runCalls {σ : Type} (os : OS σ) : List Call → World σ → Option (List Int × World σ)
  | [], w => some ([], w)
  | c :: cs, w =>
    match c.exec os w with
    | none => none
    | some (r, w1) =>
      match runCalls os cs w1 with
      | none => none
      | some (rs, w2) => some (r :: rs, w2)

/-- The host's response to one access, with no wrapper in between. -/
def Access.perform {σ : Type} (os : OS σ) : Access → Machine σ → Option (Int × Machine σ)
  | .sync e, m => some (e.eval os m)
  | .async e, m => e.eval os m

/-- The host's responses to a sequence of accesses, with no wrapper in between. -/
def hostRun {σ : Type} (os : OS σ) : List Access → Machine σ → Option (List Int × Machine σ)
  | [], m => some ([], m)
  | a :: as, m =>
    match a.perform os m with
    | none => none
    | some (r, m1) =>
      match hostRun os as m1 with
      | none => none
      | some (rs, m2) => some (r :: rs, m2)

/-- Number of suspensions of the caller that an access goes with. -/
def Access.suspends : Access → Nat
  | .sync _ => 0
  | .async _ => 1

/-- Pass-through of an error: the wrapper returns when and only when the host
responds, its result is negative exactly when the host's is and is then the
host's value, and the error-code slot holds what the host left there. -/
def PassesErrors {σ : Type} (host : Option (Int × Machine σ)) (out : Option (Int × World σ)) :
    Prop :=
  match host, out with
  | none, none => True
  | some (r, m), some (res, w) => (res < 0 ↔ r < 0) ∧ (r < 0 → res = r) ∧ w.machine.errno = m.errno
  | _, _ => False

/-! ## A concrete host -/

/-- A host for the scenarios of the spec: `read` delivers the three bytes
`abc`, `write` accepts at most two bytes, `vfork` and `waitpid` fail with the
sentinel `-1` and set the error code, `wait4` reports the child `pid` and
stores a status word. -/
def scenarioOS : OS Unit where
  vfork := fun m => some (-1, { m with errno := 11 })
  waitpid := fun _ _ _ m => some (-1, { m with errno := 10 })
  wait4 := fun pid status _ _ m =>
    some (pid, { m with mem := fun a => if a = status then 0 else m.mem a })
  read := fun _ buf _ m =>
    some (3, { m with mem := fun a =>
      if a = buf then 97 else if a = buf + 1 then 98 else if a = buf + 2 then 99 else m.mem a })
  write := fun _ _ count m => (min count 2, m)

/-- A host whose asynchronous members never resolve. -/
def silentOS : OS Unit where
  vfork := fun _ => none
  waitpid := fun _ _ _ _ => none
  wait4 := fun _ _ _ _ _ => none
  read := fun _ _ _ _ => none
  write := fun _ _ count m => (count, m)

/-- The caller's state at the start of the scenarios: process 7 with parent 1,
the bytes `hi` stored at address 200, an empty log. -/
def scenarioWorld : World Unit where
  machine :=
    { os := { pid := 7, ppid := 1, kernel := () }
      mem := fun a => if a = 200 then 104 else if a = 201 then 105 else 0
      errno := 0 }
  log := []
  suspensions := 0

/-! ## Connector lemmas -/

variable {σ : Type}

/-- An `EM_JS` connector in closed form. -/
theorem EM_JS_eq (os : OS σ) (e : SyncExpr) (w : World σ) :
    EM_JS os e w =
      ((e.eval os w.machine).1,
        { machine := (e.eval os w.machine).2, log := w.log ++ [Access.sync e],
          suspensions := w.suspensions }) := by
  unfold EM_JS
  rcases e.eval os w.machine with ⟨r, m⟩
  rfl

/-- An `EM_ASYNC_JS` connector in closed form. -/
theorem EM_ASYNC_JS_eq (os : OS σ) (e : AsyncExpr) (w : World σ) :
    EM_ASYNC_JS os e w =
      (e.eval os w.machine).map (fun p =>
        (p.1, { machine := p.2, log := w.log ++ [Access.async e],
                suspensions := w.suspensions + 1 })) := by
  unfold EM_ASYNC_JS
  rcases e.eval os w.machine with _ | ⟨r, m⟩ <;> rfl

/-! ## Pass-through of arguments and results -/

/-- C1: for every host facade and every `(fd, buf, count)`, `__wrap_read`
calls `OS.read` with exactly `(fd, buf, count)` on the current machine and
returns exactly the value it resolves with, and `__wrap_write` calls `OS.write`
with exactly `(fd, buf, count)` and returns exactly the value it returns; the
machine after the call is the one the host left, and the only host access made
is that one call with those arguments. -/
theorem C1_read_write_forward (os : OS σ) (fd : Int) (buf : ptr) (count : size_t)
    (w : World σ) :
    (wrap_c.__wrap_read os fd buf count w).map (fun p => p.1)
        = (os.read fd buf count w.machine).map (fun p => p.1)
    ∧ (wrap_c.__wrap_read os fd buf count w).map (fun p => p.2.machine)
        = (os.read fd buf count w.machine).map (fun p => p.2)
    ∧ (wrap_c.__wrap_read os fd buf count w).map (fun p => p.2.log)
        = (os.read fd buf count w.machine).map
            (fun _ => w.log ++ [Access.async (AsyncExpr.read fd buf count)])
    ∧ (wrap_c.__wrap_write os fd buf count w).1 = (os.write fd buf count w.machine).1
    ∧ (wrap_c.__wrap_write os fd buf count w).2.machine = (os.write fd buf count w.machine).2
    ∧ (wrap_c.__wrap_write os fd buf count w).2.log
        = w.log ++ [Access.sync (SyncExpr.write fd buf count)] := by
  refine ⟨?_, ?_, ?_, ?_, ?_, ?_⟩ <;>
    simp [wrap_c.__wrap_read, wrap_c.js_read, wrap_c.__wrap_write, wrap_c.js_write,
      EM_JS_eq, EM_ASYNC_JS_eq, AsyncExpr.eval, SyncExpr.eval, Function.comp_def]

/-- The scenario of C1: `read(0, buf, 10)` relays the 3 of the host and logs
`OS.read(0, buf, 10)`; `write(1, "hi", 2)` relays the 2 of the host. -/
theorem C1_read_write_forward_witness :
    (wrap_c.__wrap_read scenarioOS 0 100 10 scenarioWorld).map (fun p => p.1) = some 3
    ∧ (wrap_c.__wrap_read scenarioOS 0 100 10 scenarioWorld).map (fun p => p.2.log)
        = some [Access.async (AsyncExpr.read 0 100 10)]
    ∧ (wrap_c.__wrap_write scenarioOS 1 200 2 scenarioWorld).1 = 2 :=
  have h := C1_read_write_forward scenarioOS 0 100 10 scenarioWorld
  have h2 := C1_read_write_forward scenarioOS 1 200 2 scenarioWorld
  ⟨h.1.trans rfl, h.2.2.1.trans rfl, h2.2.2.2.1.trans rfl⟩

/-- C2: for every host facade and every pid, status pointer, options and rusage
pointer, `__wrap_waitpid` hands `(pid, status, options)` unchanged to
`OS.waitpid` and `__wrap___syscall_wait4` hands `(pid, status, options, rusage)`
unchanged to `OS.wait4`; each returns the host's value unchanged, whatever its
sign, and returns at all exactly when the host resolves. -/
theorem C2_waitpid_wait4_forward (os : OS σ) (pid : pid_t) (status : ptr) (options : Int)
    (rusage : ptr) (w : World σ) :
    (wrap_c.__wrap_waitpid os pid status options w).map (fun p => p.1)
        = (os.waitpid pid status options w.machine).map (fun p => p.1)
    ∧ (wrap_c.__wrap_waitpid os pid status options w).map (fun p => p.2.machine)
        = (os.waitpid pid status options w.machine).map (fun p => p.2)
    ∧ (wrap_c.__wrap_waitpid os pid status options w).map (fun p => p.2.log)
        = (os.waitpid pid status options w.machine).map
            (fun _ => w.log ++ [Access.async (AsyncExpr.waitpid pid status options)])
    ∧ (wrap_c.__wrap___syscall_wait4 os pid status options rusage w).map (fun p => p.1)
        = (os.wait4 pid status options rusage w.machine).map (fun p => p.1)
    ∧ (wrap_c.__wrap___syscall_wait4 os pid status options rusage w).map (fun p => p.2.machine)
        = (os.wait4 pid status options rusage w.machine).map (fun p => p.2)
    ∧ (wrap_c.__wrap___syscall_wait4 os pid status options rusage w).map (fun p => p.2.log)
        = (os.wait4 pid status options rusage w.machine).map
            (fun _ => w.log ++ [Access.async (AsyncExpr.wait4 pid status options rusage)]) := by
  refine ⟨?_, ?_, ?_, ?_, ?_, ?_⟩ <;>
    simp [wrap_c.__wrap_waitpid, wrap_c.js_waitpid, wrap_c.__wrap___syscall_wait4,
      wrap_c.js_wait4, EM_ASYNC_JS_eq, AsyncExpr.eval, Function.comp_def]

/-- Instance of C2 with a failing host: `waitpid(5, 300, 0)` relays the
sentinel `-1`, and `wait4(5, 300, 0, 400)` relays the child id `5`. -/
theorem C2_waitpid_wait4_forward_witness :
    (wrap_c.__wrap_waitpid scenarioOS 5 300 0 scenarioWorld).map (fun p => p.1) = some (-1)
    ∧ (wrap_c.__wrap___syscall_wait4 scenarioOS 5 300 0 400 scenarioWorld).map (fun p => p.1)
        = some 5 :=
  ⟨(C2_waitpid_wait4_forward scenarioOS 5 300 0 400 scenarioWorld).1.trans rfl,
    (C2_waitpid_wait4_forward scenarioOS 5 300 0 400 scenarioWorld).2.2.2.1.trans rfl⟩

/-- C3: for every host state, `__wrap_getpid` returns `OS.pid` and
`__wrap_getppid` returns `OS.ppid` as they are at the moment of the call and
leave the machine (host data, memory, error code) unchanged; when the host is
in any other state `m2` at a later call, that call returns the fields of `m2`,
so nothing is cached. -/
theorem C3_getpid_getppid_current (os : OS σ) (w : World σ) (m2 : Machine σ) :
    (wrap_c.__wrap_getpid os w).1 = w.machine.os.pid
    ∧ (wrap_c.__wrap_getpid os w).2.machine = w.machine
    ∧ (wrap_c.__wrap_getppid os w).1 = w.machine.os.ppid
    ∧ (wrap_c.__wrap_getppid os w).2.machine = w.machine
    ∧ (wrap_c.__wrap_getpid os { (wrap_c.__wrap_getpid os w).2 with machine := m2 }).1
        = m2.os.pid
    ∧ (wrap_c.__wrap_getppid os { (wrap_c.__wrap_getppid os w).2 with machine := m2 }).1
        = m2.os.ppid := by
  refine ⟨rfl, rfl, rfl, rfl, rfl, rfl⟩

/-- Instance of C3: process 7 with parent 1; after the host renumbers the
process to 9 with parent 7, the next calls return 9 and 7. -/
theorem C3_getpid_getppid_current_witness :
    (wrap_c.__wrap_getpid scenarioOS scenarioWorld).1 = 7
    ∧ (wrap_c.__wrap_getppid scenarioOS scenarioWorld).1 = 1
    ∧ (wrap_c.__wrap_getpid scenarioOS
        { (wrap_c.__wrap_getpid scenarioOS scenarioWorld).2 with
          machine := { scenarioWorld.machine with os := { pid := 9, ppid := 7, kernel := () } } }).1
        = 9
    ∧ (wrap_c.__wrap_getppid scenarioOS
        { (wrap_c.__wrap_getppid scenarioOS scenarioWorld).2 with
          machine := { scenarioWorld.machine with os := { pid := 9, ppid := 7, kernel := () } } }).1
        = 7 :=
  have h := C3_getpid_getppid_current scenarioOS scenarioWorld
    { scenarioWorld.machine with os := { pid := 9, ppid := 7, kernel := () } }
  ⟨h.1, h.2.2.1, h.2.2.2.2.1, h.2.2.2.2.2⟩

/-- C4: for every host facade, `__wrap_vfork` (in `wrap.c` and in `vfork.c`)
takes no arguments, makes the single host access `OS.vfork()`, and returns
exactly the value it resolves with, non-negative or negative; it returns
exactly when the host resolves, so it has no failing branch of its own. -/
theorem C4_vfork_relays (os : OS σ) (w : World σ) :
    wrap_c.__wrap_vfork os w
        = (os.vfork w.machine).map (fun p =>
            (p.1, { machine := p.2, log := w.log ++ [Access.async AsyncExpr.vfork],
                    suspensions := w.suspensions + 1 }))
    ∧ vfork_c.__wrap_vfork os w = wrap_c.__wrap_vfork os w
    ∧ (∀ (r : pid_t) (m : Machine σ), os.vfork w.machine = some (r, m) →
        (wrap_c.__wrap_vfork os w).map (fun p => p.1) = some r)
    ∧ (wrap_c.__wrap_vfork os w).isSome = (os.vfork w.machine).isSome := by
  have h : wrap_c.__wrap_vfork os w
        = (os.vfork w.machine).map (fun p =>
            (p.1, { machine := p.2, log := w.log ++ [Access.async AsyncExpr.vfork],
                    suspensions := w.suspensions + 1 })) := by
    simp [wrap_c.__wrap_vfork, wrap_c.js_vfork, EM_ASYNC_JS_eq, AsyncExpr.eval]
  refine ⟨h, rfl, ?_, ?_⟩
  · intro r m hm
    rw [h, hm]
    rfl
  · rw [h]
    simp

/-- Instance of C4 with a host whose `vfork` fails: the sentinel `-1` is
returned. -/
theorem C4_vfork_relays_witness :
    (wrap_c.__wrap_vfork scenarioOS scenarioWorld).map (fun p => p.1) = some (-1) :=
  (C4_vfork_relays scenarioOS scenarioWorld).2.2.1 (-1)
    { scenarioWorld.machine with errno := 11 } rfl

/-! ## Errors -/

/-- Every `EM_ASYNC_JS` connector passes errors through. -/
theorem passesErrors_async (os : OS σ) (e : AsyncExpr) (w : World σ) :
    PassesErrors (e.eval os w.machine) (EM_ASYNC_JS os e w) := by
  rw [EM_ASYNC_JS_eq]
  rcases e.eval os w.machine with _ | ⟨r, m⟩
  · trivial
  · exact ⟨Iff.rfl, fun _ => rfl, rfl⟩

/-- Every `EM_JS` connector passes errors through. -/
theorem passesErrors_sync (os : OS σ) (e : SyncExpr) (w : World σ) :
    PassesErrors (some (e.eval os w.machine)) (some (EM_JS os e w)) := by
  rw [EM_JS_eq]
  exact ⟨Iff.rfl, fun _ => rfl, rfl⟩

/-- C5: no wrapper detects or translates an error.  For each of the seven
wrappers and every host, the wrapper returns exactly when the host responds,
its result is negative exactly when the host's result is negative and is then
the same value, and the error-code slot after the call holds what the host
left there (for `getpid` and `getppid`, what it held before the call). -/
theorem C5_errors_pass_through (os : OS σ) (fd : Int) (buf : ptr) (count : size_t)
    (pid : pid_t) (status : ptr) (options : Int) (rusage : ptr) (w : World σ) :
    PassesErrors (os.read fd buf count w.machine) (wrap_c.__wrap_read os fd buf count w)
    ∧ PassesErrors (some (os.write fd buf count w.machine))
        (some (wrap_c.__wrap_write os fd buf count w))
    ∧ PassesErrors (some (w.machine.os.pid, w.machine)) (some (wrap_c.__wrap_getpid os w))
    ∧ PassesErrors (some (w.machine.os.ppid, w.machine)) (some (wrap_c.__wrap_getppid os w))
    ∧ PassesErrors (os.vfork w.machine) (wrap_c.__wrap_vfork os w)
    ∧ PassesErrors (os.waitpid pid status options w.machine)
        (wrap_c.__wrap_waitpid os pid status options w)
    ∧ PassesErrors (os.wait4 pid status options rusage w.machine)
        (wrap_c.__wrap___syscall_wait4 os pid status options rusage w)
    ∧ PassesErrors (os.wait4 pid status options rusage w.machine)
        (wait4_c.__wrap___syscall_wait4 os pid status options rusage w) :=
  ⟨passesErrors_async os (AsyncExpr.read fd buf count) w,
    passesErrors_sync os (SyncExpr.write fd buf count) w,
    passesErrors_sync os SyncExpr.pid w,
    passesErrors_sync os SyncExpr.ppid w,
    passesErrors_async os AsyncExpr.vfork w,
    passesErrors_async os (AsyncExpr.waitpid pid status options) w,
    passesErrors_async os (AsyncExpr.wait4 pid status options rusage) w,
    passesErrors_async os (AsyncExpr.wait4 pid status options rusage) w⟩

/-- Instance of C5 with a host whose `waitpid` fails with `-1` and stores the
error code 10: the caller sees `-1` and finds 10 in the error-code slot. -/
theorem C5_errors_pass_through_witness :
    PassesErrors (some (-1, { scenarioWorld.machine with errno := 10 }))
        (wrap_c.__wrap_waitpid scenarioOS 5 300 0 scenarioWorld)
    ∧ (wrap_c.__wrap_waitpid scenarioOS 5 300 0 scenarioWorld).map
        (fun p => (p.1, p.2.machine.errno)) = some (-1, 10) :=
  ⟨(C5_errors_pass_through scenarioOS 0 0 0 5 300 0 0 scenarioWorld).2.2.2.2.2.1, rfl⟩

/-! ## Suspension -/

/-- C6: the wrappers fall into two classes.  `__wrap_read`, `__wrap_vfork`,
`__wrap_waitpid` and `__wrap___syscall_wait4` go through an `EM_ASYNC_JS`
connector: the caller is suspended once, resumes with the value the host
resolved with, and does not resume when the host never resolves.
`__wrap_getpid`, `__wrap_getppid` and `__wrap_write` go through an `EM_JS`
connector: they return on every input and never suspend the caller. -/
theorem C6_two_connector_classes (os : OS σ) (fd : Int) (buf : ptr) (count : size_t)
    (pid : pid_t) (status : ptr) (options : Int) (rusage : ptr) (w : World σ) :
    (wrap_c.__wrap_read os fd buf count w).map (fun p => (p.1, p.2.suspensions))
        = (os.read fd buf count w.machine).map (fun p => (p.1, w.suspensions + 1))
    ∧ (wrap_c.__wrap_vfork os w).map (fun p => (p.1, p.2.suspensions))
        = (os.vfork w.machine).map (fun p => (p.1, w.suspensions + 1))
    ∧ (wrap_c.__wrap_waitpid os pid status options w).map (fun p => (p.1, p.2.suspensions))
        = (os.waitpid pid status options w.machine).map (fun p => (p.1, w.suspensions + 1))
    ∧ (wrap_c.__wrap___syscall_wait4 os pid status options rusage w).map
          (fun p => (p.1, p.2.suspensions))
        = (os.wait4 pid status options rusage w.machine).map
            (fun p => (p.1, w.suspensions + 1))
    ∧ (wrap_c.__wrap_getpid os w).2.suspensions = w.suspensions
    ∧ (wrap_c.__wrap_getppid os w).2.suspensions = w.suspensions
    ∧ (wrap_c.__wrap_write os fd buf count w).2.suspensions = w.suspensions
    ∧ wrap_c.js_read os fd buf count = EM_ASYNC_JS os (AsyncExpr.read fd buf count)
    ∧ wrap_c.js_vfork os = EM_ASYNC_JS os AsyncExpr.vfork
    ∧ wrap_c.js_waitpid os pid status options
        = EM_ASYNC_JS os (AsyncExpr.waitpid pid status options)
    ∧ wrap_c.js_wait4 os pid status options rusage
        = EM_ASYNC_JS os (AsyncExpr.wait4 pid status options rusage)
    ∧ wrap_c.js_getpid os = EM_JS os SyncExpr.pid
    ∧ wrap_c.js_getppid os = EM_JS os SyncExpr.ppid
    ∧ wrap_c.js_write os fd buf count = EM_JS os (SyncExpr.write fd buf count) := by
  refine ⟨?_, ?_, ?_, ?_, ?_, ?_, ?_, rfl, rfl, rfl, rfl, rfl, rfl, rfl⟩ <;>
    simp [wrap_c.__wrap_read, wrap_c.js_read, wrap_c.__wrap_vfork, wrap_c.js_vfork,
      wrap_c.__wrap_waitpid, wrap_c.js_waitpid, wrap_c.__wrap___syscall_wait4,
      wrap_c.js_wait4, wrap_c.__wrap_getpid, wrap_c.js_getpid, wrap_c.__wrap_getppid,
      wrap_c.js_getppid, wrap_c.__wrap_write, wrap_c.js_write,
      EM_JS_eq, EM_ASYNC_JS_eq, AsyncExpr.eval, Function.comp_def]

/-- Instance of C6: with a host that never resolves, the four blocking
wrappers never return, while `getpid`, `getppid` and `write` return without a
suspension. -/
theorem C6_two_connector_classes_witness :
    (wrap_c.__wrap_read silentOS 0 100 10 scenarioWorld).map (fun p => (p.1, p.2.suspensions))
        = none
    ∧ (wrap_c.__wrap_vfork silentOS scenarioWorld).map (fun p => (p.1, p.2.suspensions)) = none
    ∧ (wrap_c.__wrap_getpid silentOS scenarioWorld).2.suspensions = 0
    ∧ (wrap_c.__wrap_write silentOS 1 200 2 scenarioWorld).2.suspensions = 0 :=
  have h := C6_two_connector_classes silentOS 0 100 10 5 300 0 400 scenarioWorld
  ⟨h.1.trans rfl, h.2.1.trans rfl, h.2.2.2.2.1, h.2.2.2.2.2.2.1⟩

/-! ## Independence of `waitpid` and `wait4` -/

/-- C8: `__wrap_waitpid` reaches only `OS.waitpid` and `__wrap___syscall_wait4`
reaches only `OS.wait4`.  Replacing the `wait4` member of a host by any other
function `f` leaves every outcome of `__wrap_waitpid` the same (result,
machine, log), and replacing the `waitpid` member by any `g` leaves every
outcome of `__wrap___syscall_wait4` the same; this holds for the definitions in
`wrap.c` and for those in `waitpid.c` and `wait4.c`.  The one access logged by
each is to its own member. -/
theorem C8_waitpid_wait4_independent (os : OS σ)
    (f : pid_t → ptr → Int → ptr → Machine σ → Option (pid_t × Machine σ))
    (g : pid_t → ptr → Int → Machine σ → Option (pid_t × Machine σ))
    (pid : pid_t) (status : ptr) (options : Int) (rusage : ptr) (w : World σ) :
    wrap_c.__wrap_waitpid { os with wait4 := f } pid status options w
        = wrap_c.__wrap_waitpid os pid status options w
    ∧ wrap_c.__wrap___syscall_wait4 { os with waitpid := g } pid status options rusage w
        = wrap_c.__wrap___syscall_wait4 os pid status options rusage w
    ∧ waitpid_c.__wrap_waitpid { os with wait4 := f } pid status options w
        = waitpid_c.__wrap_waitpid os pid status options w
    ∧ wait4_c.__wrap___syscall_wait4 { os with waitpid := g } pid status options rusage w
        = wait4_c.__wrap___syscall_wait4 os pid status options rusage w
    ∧ (wrap_c.__wrap_waitpid os pid status options w).map (fun p => p.2.log)
        = (os.waitpid pid status options w.machine).map
            (fun _ => w.log ++ [Access.async (AsyncExpr.waitpid pid status options)])
    ∧ (wrap_c.__wrap___syscall_wait4 os pid status options rusage w).map (fun p => p.2.log)
        = (os.wait4 pid status options rusage w.machine).map
            (fun _ => w.log ++ [Access.async (AsyncExpr.wait4 pid status options rusage)]) := by
  refine ⟨rfl, rfl, rfl, rfl, ?_, ?_⟩ <;>
    simp [wrap_c.__wrap_waitpid, wrap_c.js_waitpid, wrap_c.__wrap___syscall_wait4,
      wrap_c.js_wait4, EM_ASYNC_JS_eq, AsyncExpr.eval, Function.comp_def]

/-- Instance of C8: a host whose `wait4` never resolves still answers
`waitpid(5, 300, 0)` with the value of its `waitpid` member. -/
theorem C8_waitpid_wait4_independent_witness :
    (wrap_c.__wrap_waitpid { scenarioOS with wait4 := silentOS.wait4 } 5 300 0
        scenarioWorld).map (fun p => p.1) = some (-1) :=
  (congrArg (Option.map (fun p => p.1))
    (C8_waitpid_wait4_independent scenarioOS silentOS.wait4 silentOS.waitpid 5 300 0 400
      scenarioWorld).1).trans rfl

/-! ## The per-file definitions -/

/-- C10: the definitions in `read.c`, `vfork.c`, `waitpid.c` and `wait4.c`
agree with the definitions of the same name in `wrap.c`: for every host and
every input, connector and wrapper make the same host call with the same
arguments and have the same outcome (result, machine, log, suspension). -/
theorem C10_per_file_agrees_with_wrap_c (os : OS σ) (fd : Int) (buf : ptr) (count : size_t)
    (pid : pid_t) (status : ptr) (options : Int) (rusage : ptr) (w : World σ) :
    read_c.__wrap_read os fd buf count w = wrap_c.__wrap_read os fd buf count w
    ∧ vfork_c.__wrap_vfork os w = wrap_c.__wrap_vfork os w
    ∧ waitpid_c.__wrap_waitpid os pid status options w
        = wrap_c.__wrap_waitpid os pid status options w
    ∧ wait4_c.__wrap___syscall_wait4 os pid status options rusage w
        = wrap_c.__wrap___syscall_wait4 os pid status options rusage w
    ∧ read_c.js_read os fd buf count w = wrap_c.js_read os fd buf count w
    ∧ vfork_c.js_vfork os w = wrap_c.js_vfork os w
    ∧ waitpid_c.js_waitpid os pid status options w = wrap_c.js_waitpid os pid status options w
    ∧ wait4_c.js_wait4 os pid status options rusage w
        = wrap_c.js_wait4 os pid status options rusage w
    ∧ (read_c.__wrap_read os fd buf count w).map (fun p => (p.1, p.2.machine, p.2.log))
        = (os.read fd buf count w.machine).map
            (fun p => (p.1, p.2, w.log ++ [Access.async (AsyncExpr.read fd buf count)])) := by
  refine ⟨rfl, rfl, rfl, rfl, rfl, rfl, rfl, rfl, ?_⟩
  simp [read_c.__wrap_read, read_c.js_read, EM_ASYNC_JS_eq, AsyncExpr.eval, Function.comp_def]

/-! ## Caller memory -/

/-- C7, in two halves that hold separately for every host.  Read half: whenever
the host's `OS.read(fd, buf, count)` resolves with `k ≤ count`, leaving a machine
`m1` in which nothing outside `buf[0..k)` differs from before, then
`__wrap_read(fd, buf, count)` (in `read.c` and in `wrap.c`) returns `k`, the
machine after the call is exactly `m1`, so `buf[0..k)` holds the host's bytes,
and `buf[k..count)` and all memory outside `buf..buf+count` are unchanged.
Write half: whenever the host's `OS.write(fd2, buf2, count2)` accepts `n` bytes,
leaving caller memory as it was, then `__wrap_write(fd2, buf2, count2)` returns
`n`, the machine after the call is exactly the one the host left, and caller
memory is unchanged.  With no assumption on the host at all, the machine after
either wrapper is the machine the host left: the shim itself writes nothing. -/
theorem C7_buffer_frame (os : OS σ) (w : World σ)
    (fd : Int) (buf : ptr) (count : size_t) (k : Nat) (m1 : Machine σ)
    (fd2 : Int) (buf2 : ptr) (count2 : size_t) (n : ssize_t) (m2 : Machine σ) :
    (os.read fd buf count w.machine = some ((k : Int), m1) →
      k ≤ count →
      (∀ a, (a < buf ∨ buf + k ≤ a) → m1.mem a = w.machine.mem a) →
      ∃ w1 : World σ,
        read_c.__wrap_read os fd buf count w = some ((k : Int), w1)
        ∧ wrap_c.__wrap_read os fd buf count w = some ((k : Int), w1)
        ∧ w1.machine = m1
        ∧ (∀ i, i < k → w1.machine.mem (buf + i) = m1.mem (buf + i))
        ∧ (∀ a, buf + k ≤ a → a < buf + count → w1.machine.mem a = w.machine.mem a)
        ∧ (∀ a, (a < buf ∨ buf + count ≤ a) → w1.machine.mem a = w.machine.mem a))
    ∧ (os.write fd2 buf2 count2 w.machine = (n, m2) →
      m2.mem = w.machine.mem →
      (wrap_c.__wrap_write os fd2 buf2 count2 w).1 = n
      ∧ (wrap_c.__wrap_write os fd2 buf2 count2 w).2.machine = m2
      ∧ (wrap_c.__wrap_write os fd2 buf2 count2 w).2.machine.mem = w.machine.mem)
    ∧ (read_c.__wrap_read os fd buf count w).map (fun p => p.2.machine)
        = (os.read fd buf count w.machine).map (fun p => p.2)
    ∧ (wrap_c.__wrap_read os fd buf count w).map (fun p => p.2.machine)
        = (os.read fd buf count w.machine).map (fun p => p.2)
    ∧ (wrap_c.__wrap_write os fd2 buf2 count2 w).2.machine
        = (os.write fd2 buf2 count2 w.machine).2 := by
  refine ⟨?_, ?_, ?_, ?_, ?_⟩
  · intro hread hk hframe
    refine ⟨{ machine := m1, log := w.log ++ [Access.async (AsyncExpr.read fd buf count)],
              suspensions := w.suspensions + 1 }, ?_, ?_, rfl, fun _ _ => rfl, ?_, ?_⟩
    · simp [read_c.__wrap_read, read_c.js_read, EM_ASYNC_JS_eq, AsyncExpr.eval, hread]
    · simp [wrap_c.__wrap_read, wrap_c.js_read, EM_ASYNC_JS_eq, AsyncExpr.eval, hread]
    · intro a h1 _
      exact hframe a (Or.inr h1)
    · intro a h
      exact hframe a (h.imp id fun h2 => Nat.le_trans (Nat.add_le_add_left hk buf) h2)
  · intro hwrite hwmem
    refine ⟨?_, ?_, ?_⟩
    · simp [wrap_c.__wrap_write, wrap_c.js_write, EM_JS_eq, SyncExpr.eval, hwrite]
    · simp [wrap_c.__wrap_write, wrap_c.js_write, EM_JS_eq, SyncExpr.eval, hwrite]
    · simp [wrap_c.__wrap_write, wrap_c.js_write, EM_JS_eq, SyncExpr.eval, hwrite, hwmem]
  · simp [read_c.__wrap_read, read_c.js_read, EM_ASYNC_JS_eq, AsyncExpr.eval,
      Function.comp_def]
  · simp [wrap_c.__wrap_read, wrap_c.js_read, EM_ASYNC_JS_eq, AsyncExpr.eval,
      Function.comp_def]
  · simp [wrap_c.__wrap_write, wrap_c.js_write, EM_JS_eq, SyncExpr.eval]

/-- The scenario of the spec.  `read(0, buf, 10)` with the host delivering the
three bytes `abc` returns 3, leaves them in `buf[0..3)` and leaves `buf[3..10)`
and the memory outside the buffer untouched; `write(1, "hi", 2)` with the host
accepting 2 bytes returns 2 and changes no memory.  The write half also holds
on a host whose `read` never resolves. -/
theorem C7_buffer_frame_witness :
    (∃ w1 : World Unit,
        read_c.__wrap_read scenarioOS 0 100 10 scenarioWorld = some (3, w1)
        ∧ wrap_c.__wrap_read scenarioOS 0 100 10 scenarioWorld = some (3, w1)
        ∧ w1.machine.mem 100 = 97 ∧ w1.machine.mem 101 = 98 ∧ w1.machine.mem 102 = 99
        ∧ (∀ a, 100 + 3 ≤ a → a < 100 + 10 → w1.machine.mem a = scenarioWorld.machine.mem a)
        ∧ (∀ a, (a < 100 ∨ 100 + 10 ≤ a) → w1.machine.mem a = scenarioWorld.machine.mem a))
    ∧ (wrap_c.__wrap_write scenarioOS 1 200 2 scenarioWorld).1 = 2
    ∧ (wrap_c.__wrap_write scenarioOS 1 200 2 scenarioWorld).2.machine.mem 200 = 104
    ∧ (wrap_c.__wrap_write scenarioOS 1 200 2 scenarioWorld).2.machine.mem 201 = 105
    ∧ (wrap_c.__wrap_write silentOS 1 200 2 scenarioWorld).1 = 2
    ∧ (wrap_c.__wrap_write silentOS 1 200 2 scenarioWorld).2.machine.mem
        = scenarioWorld.machine.mem := by
  have h := C7_buffer_frame scenarioOS scenarioWorld 0 100 10 3
    { scenarioWorld.machine with mem := fun a =>
        if a = 100 then 97 else if a = 100 + 1 then 98 else if a = 100 + 2 then 99
        else scenarioWorld.machine.mem a }
    1 200 2 2 scenarioWorld.machine
  have hs := (C7_buffer_frame silentOS scenarioWorld 0 100 10 0 scenarioWorld.machine
    1 200 2 2 scenarioWorld.machine).2.1 rfl rfl
  obtain ⟨w1, hr, hw, hm, -, hrest, hout⟩ := h.1 rfl (by decide)
    (by
      intro (a : Nat) (ha : a < 100 ∨ 100 + 3 ≤ a)
      have h0 : a ≠ 100 := by omega
      have h1 : a ≠ 100 + 1 := by omega
      have h2 : a ≠ 100 + 2 := by omega
      simp only [h0, h1, h2, if_false])
  obtain ⟨hn, -, hmem⟩ := h.2.1 rfl rfl
  refine ⟨⟨w1, hr, hw, ?_, ?_, ?_, hrest, hout⟩, hn, ?_, ?_, hs.1, hs.2.2⟩
  · rw [hm]; rfl
  · rw [hm]; rfl
  · rw [hm]; rfl
  · rw [hmem]; rfl
  · rw [hmem]; rfl

/-! ## Sequences of calls -/

/-- One wrapper call is one host access. -/
theorem Call.exec_eq (os : OS σ) (c : Call) (w : World σ) :
    c.exec os w =
      (c.access.perform os w.machine).map (fun p =>
        (p.1, { machine := p.2, log := w.log ++ [c.access],
                suspensions := w.suspensions + c.access.suspends })) := by
  cases c <;>
    simp [Call.exec, Call.access, Access.perform, Access.suspends,
      wrap_c.__wrap_read, wrap_c.js_read, wrap_c.__wrap_vfork, wrap_c.js_vfork,
      wrap_c.__wrap_waitpid, wrap_c.js_waitpid, wrap_c.__wrap___syscall_wait4,
      wrap_c.js_wait4, wrap_c.__wrap_getpid, wrap_c.js_getpid, wrap_c.__wrap_getppid,
      wrap_c.js_getppid, wrap_c.__wrap_write, wrap_c.js_write, EM_JS_eq, EM_ASYNC_JS_eq]

/-- A sequence of wrapper calls is the same sequence of host accesses. -/
theorem runCalls_eq (os : OS σ) (cs : List Call) (w : World σ) :
    runCalls os cs w =
      (hostRun os (cs.map Call.access) w.machine).map (fun p =>
        (p.1, { machine := p.2, log := w.log ++ cs.map Call.access,
                suspensions := w.suspensions + ((cs.map Call.access).map Access.suspends).sum })) := by
  induction cs generalizing w with
  | nil => simp [runCalls, hostRun]
  | cons c cs ih =>
    simp only [runCalls, hostRun, List.map_cons, List.sum_cons, Call.exec_eq]
    rcases c.access.perform os w.machine with _ | ⟨r, m1⟩
    · rfl
    · simp only [Option.map_some', ih]
      rcases hostRun os (cs.map Call.access) m1 with _ | ⟨rs, m2⟩
      · rfl
      · simp [List.append_assoc, Nat.add_assoc]

/-- The host gives one response per access. -/
theorem hostRun_length (os : OS σ) (as : List Access) (m : Machine σ) (rs : List Int)
    (m2 : Machine σ) (h : hostRun os as m = some (rs, m2)) : rs.length = as.length := by
  induction as generalizing m rs m2 with
  | nil =>
    simp only [hostRun, Option.some.injEq, Prod.mk.injEq] at h
    rw [← h.1]
    rfl
  | cons a as ih =>
    simp only [hostRun] at h
    rcases ha : a.perform os m with _ | ⟨r, m1⟩
    · simp [ha] at h
    · rcases hr : hostRun os as m1 with _ | ⟨rs1, m3⟩
      · simp [ha, hr] at h
      · simp only [ha, hr, Option.some.injEq, Prod.mk.injEq] at h
        rw [← h.1, List.length_cons, List.length_cons, ih m1 rs1 m3 hr]

/-- C9: every wrapper invocation makes exactly one host access and keeps no
state of its own.  For every host, every finite sequence `cs` of wrapper calls
issued in program order and every starting state: the calls return exactly
when the host answers the corresponding sequence of accesses; the results are
the host's responses, in order; the machine at the end is the one the host
alone produces; the log has grown by exactly one entry per call, in the order
issued, each entry being the matching host member with the call's arguments.
The result of a single call and the machine it leaves depend only on the
machine it starts from, not on the log or on earlier suspensions. -/
theorem C9_one_access_per_call (os : OS σ) (cs : List Call) (c : Call) (w w2 : World σ) :
    (runCalls os cs w).map (fun p => (p.1, p.2.machine))
        = hostRun os (cs.map Call.access) w.machine
    ∧ (runCalls os cs w).map (fun p => p.2.log)
        = (hostRun os (cs.map Call.access) w.machine).map
            (fun _ => w.log ++ cs.map Call.access)
    ∧ (∀ rs w1, runCalls os cs w = some (rs, w1) →
        w1.log = w.log ++ cs.map Call.access ∧ rs.length = cs.length
        ∧ w1.log.length = w.log.length + cs.length)
    ∧ (c.exec os w).map (fun p => (p.1, p.2.machine)) = c.access.perform os w.machine
    ∧ (c.exec os w).map (fun p => p.2.log)
        = (c.access.perform os w.machine).map (fun _ => w.log ++ [c.access])
    ∧ (w2.machine = w.machine →
        (c.exec os w2).map (fun p => (p.1, p.2.machine))
          = (c.exec os w).map (fun p => (p.1, p.2.machine))) := by
  refine ⟨?_, ?_, ?_, ?_, ?_, ?_⟩
  · simp [runCalls_eq, Function.comp_def]
  · simp [runCalls_eq, Function.comp_def]
  · intro rs w1 h
    rw [runCalls_eq] at h
    rcases hr : hostRun os (cs.map Call.access) w.machine with _ | ⟨rs1, m2⟩
    · simp [hr] at h
    · simp only [hr, Option.map_some', Option.some.injEq, Prod.mk.injEq] at h
      obtain ⟨h1, h2⟩ := h
      subst h1 h2
      have hl := hostRun_length os (cs.map Call.access) w.machine rs1 m2 hr
      simp only [List.length_map] at hl
      simp [hl]
  · simp [Call.exec_eq, Function.comp_def]
  · simp [Call.exec_eq, Function.comp_def]
  · intro h
    simp [Call.exec_eq, Function.comp_def, h]

/-- A run of C9: `getpid`, `write(1, "hi", 2)`, `read(0, buf, 10)`, `vfork` on
the scenario host return 7, 2, 3 and -1, and the log holds the four host
accesses in that order. -/
theorem C9_one_access_per_call_witness :
    (runCalls scenarioOS [Call.getpid, Call.write 1 200 2, Call.read 0 100 10, Call.vfork]
        scenarioWorld).map (fun p => p.1) = some [7, 2, 3, -1]
    ∧ (runCalls scenarioOS [Call.getpid, Call.write 1 200 2, Call.read 0 100 10, Call.vfork]
        scenarioWorld).map (fun p => p.2.log)
      = some [Access.sync SyncExpr.pid, Access.sync (SyncExpr.write 1 200 2),
          Access.async (AsyncExpr.read 0 100 10), Access.async AsyncExpr.vfork] :=
  have h := C9_one_access_per_call scenarioOS
    [Call.getpid, Call.write 1 200 2, Call.read 0 100 10, Call.vfork] Call.getpid
    scenarioWorld scenarioWorld
  ⟨(congrArg (Option.map (fun p => p.1)) h.1).symm ▸ rfl, h.2.1.trans rfl⟩

/-- Instance of C10 on the scenario host: `__wrap_read` of `read.c` and of
`wrap.c` both return 3 for `read(0, buf, 10)`. -/
theorem C10_per_file_agrees_with_wrap_c_witness :
    (read_c.__wrap_read scenarioOS 0 100 10 scenarioWorld).map (fun p => p.1) = some 3
    ∧ (wrap_c.__wrap_read scenarioOS 0 100 10 scenarioWorld).map (fun p => p.1) = some 3 :=
  have h := C10_per_file_agrees_with_wrap_c scenarioOS 0 100 10 5 300 0 400 scenarioWorld
  ⟨rfl, h.1 ▸ rfl⟩

end SnailOS
